import Mathlib

/-!
Verification of the openirc/openirc-web static file server.

The repository consists of the single script src/server/src/main.py:

  app = Sanic(__name__)
  app.static('/', './public/index.html')
  app.static('*', './public')
  app.run(host="0.0.0.0", port=4321)

The script delegates static asset resolution to the framework; the
specification (spec.md sections 3, 4, 7) describes that resolver in full.
The resolver itself is therefore modelled from the spec, while the route
registrations and the listen configuration are embedded directly from
main.py.
-/

namespace OpenircWeb

/-- Result of one read-only filesystem metadata query on an absolute path
(given as a list of path segments below the filesystem root).
`err` stands for any filesystem error other than non-existence
(for example permission denied). -/
inductive FsStat
  | file
  | dir
  | missing
  | err
deriving DecidableEq, Repr

/-- A snapshot of filesystem metadata: each absolute path (segment list)
has one status. -/
def Filesystem : Type := List String → FsStat

/-- Modelled from the spec (section 3, DocumentRoot): an immutable
configuration value holding the absolute base directory (as path
segments) and the name/relative path of the index resource. -/
structure DocumentRoot where
  baseDirectory : List String
  indexName : String
deriving DecidableEq, Repr

/-- Modelled from the spec (section 3, ResolvedAsset): the outcome of
resolving one request path against a DocumentRoot. -/
inductive ResolvedAsset
  | Found (absolutePath : List String) (contentType : String)
  | NotFound
  | Forbidden
deriving DecidableEq, Repr

/-- Split a character list on the slash separator. -/
def splitOnSlash : List Char → List (List Char)
  | [] => [[]]
  | c :: rest =>
    if c = '/' then [] :: splitOnSlash rest
    else
      match splitOnSlash rest with
      | [] => [[c]]
      | s :: ss => (c :: s) :: ss

/-- Path segments of a string path, splitting on the slash separator. -/
def segsOf (s : String) : List String :=
  (splitOnSlash s.data).map (fun cs => String.mk cs)

/-- Characters after the last dot of a file name, if the name has a dot. -/
def extOfAux : List Char → Option (List Char)
  | [] => none
  | c :: rest =>
    if c = '.' then
      match extOfAux rest with
      | some e => some e
      | none => some rest
    else extOfAux rest

/-- The extension of a file name: the part after the last dot, or the
empty string when the name has no dot. -/
def extOf (name : String) : String :=
  match extOfAux name.data with
  | some e => String.mk e
  | none => ""

/-- Modelled from the spec (section 4.1 step 6): the fixed
extension-to-MIME mapping used for the content type of a Found result. -/
def mimeMapping : List (String × String) :=
  [("html", "text/html"),
   ("css", "text/css"),
   ("js", "application/javascript"),
   ("json", "application/json"),
   ("png", "image/png"),
   ("jpg", "image/jpeg"),
   ("gif", "image/gif"),
   ("svg", "image/svg+xml"),
   ("ico", "image/x-icon"),
   ("txt", "text/plain")]

/-- Content type for an extension: looked up in the fixed mapping, with
unknown extensions mapping to the generic binary content type. -/
def mimeOf (ext : String) : String :=
  (mimeMapping.lookup ext).getD "application/octet-stream"

/-- Modelled from the spec (section 4.1 step 2): strip the leading path
separator from a request path. -/
def stripLeadingSep (cs : List Char) : List Char :=
  match cs with
  | '/' :: rest => rest
  | _ => cs

/-- Modelled from the spec (section 4.1 step 3): normalize a relative
segment list against a starting absolute path, resolving dot segments,
dot-dot segments (which pop one component, also across the base
boundary, as os.path.normpath of the joined path does) and empty
segments. -/
def normalizeFrom (stack : List String) : List String → List String
  | [] => stack
  | s :: rest =>
    if s = "." ∨ s = "" then normalizeFrom stack rest
    else if s = ".." then normalizeFrom stack.dropLast rest
    else normalizeFrom (stack ++ [s]) rest

/-- Modelled from the spec (section 4.1 steps 1 and 2): the target
relative path of a request, as segments. The root path (or the empty
path) targets the index name; any other path is stripped of its leading
separator and taken relative to the base directory. -/
def targetRelSegs (requestPath : String) (root : DocumentRoot) : List String :=
  if requestPath = "/" ∨ requestPath = "" then segsOf root.indexName
  else (splitOnSlash (stripLeadingSep requestPath.data)).map (fun cs => String.mk cs)

/-- Modelled from the spec (section 4.1 step 3): the normalized absolute
path targeted by a request. -/
def targetAbs (requestPath : String) (root : DocumentRoot) : List String :=
  normalizeFrom root.baseDirectory (targetRelSegs requestPath root)

/-- Modelled from the spec (section 4.1): the static asset resolver.
Containment check first, then the existence and directory check, then a
Found result carrying the absolute path and the inferred content type. -/
def resolve (requestPath : String) (root : DocumentRoot) (fs : Filesystem) : ResolvedAsset :=
  if root.baseDirectory.isPrefixOf (targetAbs requestPath root) then
    match fs (targetAbs requestPath root) with
    | FsStat.file =>
        ResolvedAsset.Found (targetAbs requestPath root)
          (mimeOf (extOf ((targetAbs requestPath root).getLastD "")))
    | _ => ResolvedAsset.NotFound
  else ResolvedAsset.Forbidden

/-- Modelled from the spec (sections 6 and 7): the HTTP status code of a
resolution outcome. -/
def statusOf : ResolvedAsset → Nat
  | ResolvedAsset.Found _ _ => 200
  | ResolvedAsset.NotFound => 404
  | ResolvedAsset.Forbidden => 403

/-- A static route registration target of main.py: either a single file
or a directory. -/
inductive StaticTarget
  | fileTarget (path : String)
  | dirTarget (path : String)
deriving DecidableEq, Repr

/-- The two static registrations of src/server/src/main.py lines 8 and 9,
in program order. -/
def staticRegistrations : List (String × StaticTarget) :=
  [("/", StaticTarget.fileTarget "./public/index.html"),
   ("*", StaticTarget.dirTarget "./public")]

/-- Modelled from the spec (sections 1 and 6): whether a registered route
pattern matches a request path; the wildcard pattern matches every path,
any other pattern matches exactly itself. -/
def patternMatches (pattern p : String) : Bool :=
  pattern = "*" || pattern = p

/-- Modelled from the spec (sections 1 and 6): the registration serving a
request path is the first registration, in program order, whose pattern
matches the path. -/
def routeFor (p : String) : Option StaticTarget :=
  (staticRegistrations.find? (fun r => patternMatches r.fst p)).map Prod.snd

/-- The listen configuration of a server run. -/
structure ListenConfig where
  host : String
  port : Nat
deriving DecidableEq, Repr

/-- The listen configuration from src/server/src/main.py line 11:
app.run(host="0.0.0.0", port=4321). The script reads no command line
flags and no environment variables, so the configuration ignores both. -/
def mainListenConfig (_argv : List String) (_env : String → Option String) : ListenConfig :=
  ListenConfig.mk "0.0.0.0" 4321

/-- The document root configured in src/server/src/main.py: the ./public
directory with index file index.html. -/
def defaultRoot : DocumentRoot :=
  DocumentRoot.mk ["public"] "index.html"

/-- Outcome of starting the server process. -/
inductive StartupResult
  | started
  | failedExit (code : Nat)
deriving DecidableEq, Repr

/-- Modelled from the spec (sections 3 and 7): at server start the base
directory must exist and be a directory; if it does not, startup fails
with a non-zero exit code before any request is served. -/
def startup (root : DocumentRoot) (fs : Filesystem) : StartupResult :=
  if fs root.baseDirectory = FsStat.dir then StartupResult.started
  else StartupResult.failedExit 1

/-- A sample filesystem matching the scenario of spec.md section 8: the
public directory holds index.html and css/app.css, nothing else. -/
def fsPub : Filesystem := fun path =>
  if path = ["public"] then FsStat.dir
  else if path = ["public", "index.html"] then FsStat.file
  else if path = ["public", "css"] then FsStat.dir
  else if path = ["public", "css", "app.css"] then FsStat.file
  else FsStat.missing

/-- A list is a Boolean prefix of itself followed by anything. -/
lemma isPrefixOf_append_self (l t : List String) : l.isPrefixOf (l ++ t) = true := by
  induction l with
  | nil => simp [List.isPrefixOf]
  | cons a as ih => simp [List.isPrefixOf, ih]

/-- Normalizing segments that contain no dot-dot component only ever
extends the starting path. -/
lemma normalizeFrom_no_dotdot (segs : List String) :
    ∀ stack : List String, ".." ∉ segs → ∃ t, normalizeFrom stack segs = stack ++ t := by
  induction segs with
  | nil => exact fun stack _ => ⟨[], by simp [normalizeFrom]⟩
  | cons s rest ih =>
    intro stack h
    rw [List.mem_cons] at h
    push_neg at h
    by_cases hs : s = "." ∨ s = ""
    · obtain ⟨t, ht⟩ := ih stack h.2
      refine ⟨t, ?_⟩
      simp only [normalizeFrom]
      rw [if_pos hs]
      exact ht
    · have hdd : ¬ s = ".." := fun e => h.1 e.symm
      obtain ⟨t, ht⟩ := ih (stack ++ [s]) h.2
      refine ⟨s :: t, ?_⟩
      simp only [normalizeFrom]
      rw [if_neg hs, if_neg hdd, ht, List.append_assoc]
      rfl

/-- A request whose target relative segments contain no dot-dot component
resolves inside the document root. -/
lemma targetAbs_contained (p : String) (root : DocumentRoot)
    (h : ".." ∉ targetRelSegs p root) :
    root.baseDirectory.isPrefixOf (targetAbs p root) = true := by
  obtain ⟨t, ht⟩ := normalizeFrom_no_dotdot (targetRelSegs p root) root.baseDirectory h
  rw [targetAbs, ht]
  exact isPrefixOf_append_self _ _

/-- Claim C1: for every request path whose normalized absolute form is
not a descendant of the document root, resolution returns Forbidden and
never returns Found. -/
theorem C1_escape_forbidden (p : String) (root : DocumentRoot) (fs : Filesystem)
    (h : root.baseDirectory.isPrefixOf (targetAbs p root) = false) :
    resolve p root fs = ResolvedAsset.Forbidden ∧
      ∀ abs ct, resolve p root fs ≠ ResolvedAsset.Found abs ct := by
  simp [resolve, h]

/-- Witness for claim C1 at the concrete traversal path of spec.md
section 8, against a filesystem on which every path exists as a file. -/
theorem C1_escape_forbidden_witness :
    defaultRoot.baseDirectory.isPrefixOf (targetAbs "/../../etc/passwd" defaultRoot) = false ∧
      (resolve "/../../etc/passwd" defaultRoot (fun _ => FsStat.file) = ResolvedAsset.Forbidden ∧
        ∀ abs ct,
          resolve "/../../etc/passwd" defaultRoot (fun _ => FsStat.file) ≠
            ResolvedAsset.Found abs ct) :=
  ⟨by decide,
   C1_escape_forbidden "/../../etc/passwd" defaultRoot (fun _ => FsStat.file) (by decide)⟩

/-- Claim C3: if the configured document root does not exist or is not a
directory, startup fails with a non-zero exit code and the server never
starts; the check is part of startup itself, before any request. -/
theorem C3_startup_fail_fast (root : DocumentRoot) (fs : Filesystem)
    (h : fs root.baseDirectory ≠ FsStat.dir) :
    startup root fs = StartupResult.failedExit 1 ∧ (1 : Nat) ≠ 0 ∧
      startup root fs ≠ StartupResult.started := by
  simp [startup, h]

/-- Witness for claim C3 with a missing document root. -/
theorem C3_startup_fail_fast_witness :
    (fun _ : List String => FsStat.missing) defaultRoot.baseDirectory ≠ FsStat.dir ∧
      (startup defaultRoot (fun _ => FsStat.missing) = StartupResult.failedExit 1 ∧
        (1 : Nat) ≠ 0 ∧
        startup defaultRoot (fun _ => FsStat.missing) ≠ StartupResult.started) :=
  ⟨by decide, C3_startup_fail_fast defaultRoot (fun _ => FsStat.missing) (by decide)⟩

/-- Claim C8: resolution is deterministic — two calls with the same
request path, the same document root and the same filesystem state
return identical results. -/
theorem C8_idempotent (p : String) (root : DocumentRoot) (fs : Filesystem)
    (r₁ r₂ : ResolvedAsset) (h₁ : r₁ = resolve p root fs) (h₂ : r₂ = resolve p root fs) :
    r₁ = r₂ :=
  h₁.trans h₂.symm

/-- Witness for claim C8: two resolutions of the stylesheet path of
spec.md section 8 against the sample filesystem agree. -/
theorem C8_idempotent_witness :
    ResolvedAsset.Found ["public", "css", "app.css"] "text/css" =
        resolve "/css/app.css" defaultRoot fsPub ∧
      ResolvedAsset.Found ["public", "css", "app.css"] "text/css" =
        resolve "/css/app.css" defaultRoot fsPub ∧
      (ResolvedAsset.Found ["public", "css", "app.css"] "text/css" : ResolvedAsset) =
        ResolvedAsset.Found ["public", "css", "app.css"] "text/css" :=
  ⟨by decide, by decide,
   C8_idempotent "/css/app.css" defaultRoot fsPub _ _ (by decide) (by decide)⟩

/-- Claim C9: the listener configuration of main.py line 11 is the fixed
host 0.0.0.0 and port 4321, unaffected by command line flags or
environment variables. -/
theorem C9_fixed_listen_config :
    ∀ (argv argv₂ : List String) (env env₂ : String → Option String),
      (mainListenConfig argv env).host = "0.0.0.0" ∧
        (mainListenConfig argv env).port = 4321 ∧
        mainListenConfig argv env = mainListenConfig argv₂ env₂ :=
  fun _ _ _ _ => ⟨rfl, rfl, rfl⟩

/-- Claim C10: in main.py the root registration mapping the root path to
./public/index.html comes before the wildcard registration mapping to
./public, so the root path is served by the index-file registration and
never by the directory registration. -/
theorem C10_root_registration_first :
    staticRegistrations.head? = some ("/", StaticTarget.fileTarget "./public/index.html") ∧
      staticRegistrations[1]? = some ("*", StaticTarget.dirTarget "./public") ∧
      routeFor "/" = some (StaticTarget.fileTarget "./public/index.html") ∧
      routeFor "/" ≠ some (StaticTarget.dirTarget "./public") := by
  decide

/-- Claim C2: for a non-root request path, the target is the stripped
path taken relative to the document root; a contained existing file is
served with status 200, a missing target or a directory gives status
404, and a target escaping the root gives status 403. -/
theorem C2_non_root_get (p : String) (root : DocumentRoot) (fs : Filesystem)
    (hp1 : p ≠ "/") (hp2 : p ≠ "") :
    targetAbs p root =
        normalizeFrom root.baseDirectory
          ((splitOnSlash (stripLeadingSep p.data)).map (fun cs => String.mk cs)) ∧
      (root.baseDirectory.isPrefixOf (targetAbs p root) = true →
        (fs (targetAbs p root) = FsStat.file →
          resolve p root fs =
              ResolvedAsset.Found (targetAbs p root)
                (mimeOf (extOf ((targetAbs p root).getLastD ""))) ∧
            statusOf (resolve p root fs) = 200) ∧
        ((fs (targetAbs p root) = FsStat.missing ∨ fs (targetAbs p root) = FsStat.dir) →
          resolve p root fs = ResolvedAsset.NotFound ∧
            statusOf (resolve p root fs) = 404)) ∧
      (root.baseDirectory.isPrefixOf (targetAbs p root) = false →
        resolve p root fs = ResolvedAsset.Forbidden ∧
          statusOf (resolve p root fs) = 403) := by
  refine ⟨?_, ?_, ?_⟩
  · simp [targetAbs, targetRelSegs, hp1, hp2]
  · intro hin
    refine ⟨fun hf => ?_, fun hmd => ?_⟩
    · simp [resolve, hin, hf, statusOf]
    · rcases hmd with h | h <;> simp [resolve, hin, h, statusOf]
  · intro hout
    simp [resolve, hout, statusOf]

/-- Witness for claim C2 at the stylesheet path of spec.md section 8
against the sample filesystem. -/
theorem C2_non_root_get_witness :
    "/css/app.css" ≠ "/" ∧ "/css/app.css" ≠ "" ∧
      (targetAbs "/css/app.css" defaultRoot =
          normalizeFrom defaultRoot.baseDirectory
            ((splitOnSlash (stripLeadingSep "/css/app.css".data)).map
              (fun cs => String.mk cs)) ∧
        (defaultRoot.baseDirectory.isPrefixOf (targetAbs "/css/app.css" defaultRoot) = true →
          (fsPub (targetAbs "/css/app.css" defaultRoot) = FsStat.file →
            resolve "/css/app.css" defaultRoot fsPub =
                ResolvedAsset.Found (targetAbs "/css/app.css" defaultRoot)
                  (mimeOf (extOf ((targetAbs "/css/app.css" defaultRoot).getLastD ""))) ∧
              statusOf (resolve "/css/app.css" defaultRoot fsPub) = 200) ∧
          ((fsPub (targetAbs "/css/app.css" defaultRoot) = FsStat.missing ∨
              fsPub (targetAbs "/css/app.css" defaultRoot) = FsStat.dir) →
            resolve "/css/app.css" defaultRoot fsPub = ResolvedAsset.NotFound ∧
              statusOf (resolve "/css/app.css" defaultRoot fsPub) = 404)) ∧
        (defaultRoot.baseDirectory.isPrefixOf (targetAbs "/css/app.css" defaultRoot) = false →
          resolve "/css/app.css" defaultRoot fsPub = ResolvedAsset.Forbidden ∧
            statusOf (resolve "/css/app.css" defaultRoot fsPub) = 403)) :=
  ⟨by decide, by decide, C2_non_root_get "/css/app.css" defaultRoot fsPub (by decide) (by decide)⟩

/-- Claim C4: the root request path (or the empty path) targets the
configured index file and resolves to Found at that index file whenever
the index file exists on storage. -/
theorem C4_root_serves_index (p : String) (root : DocumentRoot) (fs : Filesystem)
    (hp : p = "/" ∨ p = "")
    (hidx : ".." ∉ segsOf root.indexName)
    (hfile : fs (normalizeFrom root.baseDirectory (segsOf root.indexName)) = FsStat.file) :
    targetAbs p root = normalizeFrom root.baseDirectory (segsOf root.indexName) ∧
      resolve p root fs =
        ResolvedAsset.Found (targetAbs p root)
          (mimeOf (extOf ((targetAbs p root).getLastD ""))) := by
  have hrel : targetRelSegs p root = segsOf root.indexName := by
    rcases hp with rfl | rfl <;> simp [targetRelSegs]
  have habs : targetAbs p root = normalizeFrom root.baseDirectory (segsOf root.indexName) := by
    rw [targetAbs, hrel]
  have hin : root.baseDirectory.isPrefixOf (targetAbs p root) = true :=
    targetAbs_contained p root (by rw [hrel]; exact hidx)
  have hfile2 : fs (targetAbs p root) = FsStat.file := by rw [habs]; exact hfile
  exact ⟨habs, by simp [resolve, hin, hfile2]⟩

/-- Witness for claim C4 at the root path against the sample
filesystem, whose index.html exists. -/
theorem C4_root_serves_index_witness :
    ("/" = "/" ∨ ("/" : String) = "") ∧ ".." ∉ segsOf defaultRoot.indexName ∧
      fsPub (normalizeFrom defaultRoot.baseDirectory (segsOf defaultRoot.indexName)) =
        FsStat.file ∧
      (targetAbs "/" defaultRoot =
          normalizeFrom defaultRoot.baseDirectory (segsOf defaultRoot.indexName) ∧
        resolve "/" defaultRoot fsPub =
          ResolvedAsset.Found (targetAbs "/" defaultRoot)
            (mimeOf (extOf ((targetAbs "/" defaultRoot).getLastD "")))) :=
  ⟨by decide, by decide, by decide,
   C4_root_serves_index "/" defaultRoot fsPub (by decide) (by decide) (by decide)⟩

/-- Claim C5: a request contained in the document root whose target is
missing or is a directory resolves to NotFound, never to Found. -/
theorem C5_missing_or_dir_not_found (p : String) (root : DocumentRoot) (fs : Filesystem)
    (hin : root.baseDirectory.isPrefixOf (targetAbs p root) = true)
    (hmd : fs (targetAbs p root) = FsStat.missing ∨ fs (targetAbs p root) = FsStat.dir) :
    resolve p root fs = ResolvedAsset.NotFound ∧
      ∀ abs ct, resolve p root fs ≠ ResolvedAsset.Found abs ct := by
  rcases hmd with h | h <;> simp [resolve, h, hin]

/-- Witness for claim C5 at the directory path of spec.md section 8
against the sample filesystem. -/
theorem C5_missing_or_dir_not_found_witness :
    defaultRoot.baseDirectory.isPrefixOf (targetAbs "/css" defaultRoot) = true ∧
      (fsPub (targetAbs "/css" defaultRoot) = FsStat.missing ∨
        fsPub (targetAbs "/css" defaultRoot) = FsStat.dir) ∧
      (resolve "/css" defaultRoot fsPub = ResolvedAsset.NotFound ∧
        ∀ abs ct, resolve "/css" defaultRoot fsPub ≠ ResolvedAsset.Found abs ct) :=
  ⟨by decide, by decide,
   C5_missing_or_dir_not_found "/css" defaultRoot fsPub (by decide) (by decide)⟩

/-- Claim C6: every request path maps to exactly one of the three
ResolvedAsset variants, and a filesystem error other than non-existence
gives the same outcome as a missing file. -/
theorem C6_total_err_as_missing (p : String) (root : DocumentRoot) (fs : Filesystem) :
    ((∃ abs ct, resolve p root fs = ResolvedAsset.Found abs ct) ∨
        resolve p root fs = ResolvedAsset.NotFound ∨
        resolve p root fs = ResolvedAsset.Forbidden) ∧
      (fs (targetAbs p root) = FsStat.err →
        resolve p root fs = resolve p root (fun _ => FsStat.missing)) := by
  constructor
  · cases hr : resolve p root fs with
    | Found abs ct => exact Or.inl ⟨abs, ct, rfl⟩
    | NotFound => exact Or.inr (Or.inl rfl)
    | Forbidden => exact Or.inr (Or.inr rfl)
  · intro herr
    simp [resolve, herr]

/-- Witness for claim C6 against a filesystem that reports a permission
error on every path. -/
theorem C6_total_err_as_missing_witness :
    ((∃ abs ct,
          resolve "/index.html" defaultRoot (fun _ => FsStat.err) =
            ResolvedAsset.Found abs ct) ∨
        resolve "/index.html" defaultRoot (fun _ => FsStat.err) = ResolvedAsset.NotFound ∨
        resolve "/index.html" defaultRoot (fun _ => FsStat.err) = ResolvedAsset.Forbidden) ∧
      ((fun _ : List String => FsStat.err) (targetAbs "/index.html" defaultRoot) = FsStat.err →
        resolve "/index.html" defaultRoot (fun _ => FsStat.err) =
          resolve "/index.html" defaultRoot (fun _ => FsStat.missing)) :=
  C6_total_err_as_missing "/index.html" defaultRoot (fun _ => FsStat.err)

/-- Claim C7: a request contained in the document root whose target is a
regular file resolves to Found carrying the absolute path and the
content type of the fixed extension mapping, with unknown extensions
mapping to the generic binary content type. -/
theorem C7_found_with_mime (p : String) (root : DocumentRoot) (fs : Filesystem)
    (hin : root.baseDirectory.isPrefixOf (targetAbs p root) = true)
    (hfile : fs (targetAbs p root) = FsStat.file) :
    resolve p root fs =
        ResolvedAsset.Found (targetAbs p root)
          (mimeOf (extOf ((targetAbs p root).getLastD ""))) ∧
      ∀ e, mimeMapping.lookup e = none → mimeOf e = "application/octet-stream" := by
  refine ⟨by simp [resolve, hin, hfile], ?_⟩
  intro e he
  simp [mimeOf, he]

/-- Witness for claim C7 at the stylesheet path of spec.md section 8
against the sample filesystem. -/
theorem C7_found_with_mime_witness :
    defaultRoot.baseDirectory.isPrefixOf (targetAbs "/css/app.css" defaultRoot) = true ∧
      fsPub (targetAbs "/css/app.css" defaultRoot) = FsStat.file ∧
      (resolve "/css/app.css" defaultRoot fsPub =
          ResolvedAsset.Found (targetAbs "/css/app.css" defaultRoot)
            (mimeOf (extOf ((targetAbs "/css/app.css" defaultRoot).getLastD ""))) ∧
        ∀ e, mimeMapping.lookup e = none → mimeOf e = "application/octet-stream") :=
  ⟨by decide, by decide,
   C7_found_with_mime "/css/app.css" defaultRoot fsPub (by decide) (by decide)⟩

/-- Witness for claim C9 at an empty command line and an empty
environment. -/
theorem C9_fixed_listen_config_witness :
    (mainListenConfig [] (fun _ => none)).host = "0.0.0.0" ∧
      (mainListenConfig [] (fun _ => none)).port = 4321 ∧
      mainListenConfig [] (fun _ => none) =
        mainListenConfig ["--port", "9999"] (fun _ => some "9999") :=
  C9_fixed_listen_config [] ["--port", "9999"] (fun _ => none) (fun _ => some "9999")

end OpenircWeb
